import Mathlib

/-! Verification development for the portfolio website script (src/js/main.js).

The script is a collection of browser UI controllers.  We give a shallow
embedding of the state and operations the testable properties talk about:

* `FormManager`   : contact-form validation and simulated submission
                    (handleContactForm, validateForm, validateField,
                    isValidEmail, showFieldError, clearFieldError,
                    showFormSuccess),
* `ScrollManager` : the back-to-top visibility toggle (updateBackToTop),
* `ThemeManager`  : the persisted light/dark theme,
* `Navigation`    : active-section computation and nav-link highlighting
                    (updateActiveSection, updateActiveNavLink,
                    isElementInViewport),
* `ProjectGallery`: category filtering of project cards,
* `AnimationManager`: the one-shot reveal animation driven by an
                    intersection observer.

DOM side effects are modelled as explicit state (record fields for inline
style properties, lists for class lists and displayed error messages), and
`setTimeout` calls are modelled as explicitly returned pending timers that
a separate step function fires.  Machine reals coming from layout are
modelled as rationals; the browser only hands the script integral-ish
pixel values in the claims under study.
-/

/-! Part: Strings and characters

`isSpaceChar` models the JavaScript `\s` class / `String.prototype.trim`
whitespace on the ASCII range (the inputs of interest contain no exotic
Unicode whitespace). -/

def isSpaceChar (c : Char) : Bool :=
  c == ' ' || c == '\t' || c == '\n' || c == '\r' || c == '\x0b' || c == '\x0c'

/-- JS `String.prototype.trim`: drop whitespace from both ends. -/
def jsTrim (s : String) : String :=
  ⟨((s.data.dropWhile isSpaceChar).reverse.dropWhile isSpaceChar).reverse⟩

/-- A character admitted by the regex class `[^\s@]`. -/
def emailCharOk (c : Char) : Bool :=
  !(isSpaceChar c) && c != '@'

/-- Source `FormManager.isValidEmail`: the test of `/^[^\s@]+@[^\s@]+\.[^\s@]+$/`.
A string matches iff it splits as `A ++ "@" ++ B ++ "." ++ C` with `A`, `B`,
`C` nonempty strings of `[^\s@]` characters; we search the positions of the
`@` (index `i`) and of the splitting `.` (index `j`) exhaustively, exactly
as the backtracking regex engine does. -/
def isValidEmail (email : String) : Bool :=
  let cs := email.data
  let n := cs.length
  (List.range n).any fun i =>
    (List.range n).any fun j =>
      decide (0 < i) && decide (i + 2 ≤ j) && decide (j + 2 ≤ n) &&
      cs.getD i ' ' == '@' && cs.getD j ' ' == '.' &&
      ((List.range n).all fun k => k == i || emailCharOk (cs.getD k ' '))

/-! Part: Contact form data and validation -/

/-- The four named fields of the contact form. -/
inductive FormField
  | name
  | email
  | subject
  | message
deriving DecidableEq

/-- The FormData of the contact form: the markup exposes the four fields,
so each entry is present as a (possibly empty) string. -/
structure ContactData where
  name : String
  email : String
  subject : String
  message : String
deriving DecidableEq

def getField (d : ContactData) : FormField → String
  | FormField.name => d.name
  | FormField.email => d.email
  | FormField.subject => d.subject
  | FormField.message => d.message

/-- Condition `!data[field] || data[field].trim() === ''` for a present string entry:
the string is empty or trims to empty. -/
def isBlankField (v : String) : Bool :=
  v == "" || jsTrim v == ""

/-- The inline `.error-message` elements currently displayed, one per field
at most, in insertion order. -/
abbrev Errors := List (FormField × String)

/-- Source `FormManager.showFieldError`: remove any existing error message next to
the field, then append a fresh one with the given text. -/
def showFieldError (errs : Errors) (f : FormField) (msg : String) : Errors :=
  errs.filter (fun p => p.1 ≠ f) ++ [(f, msg)]

/-- Source `FormManager.clearFieldError`: remove the error message next to the
field, if any. -/
def clearFieldError (errs : Errors) (f : FormField) : Errors :=
  errs.filter (fun p => p.1 ≠ f)

def requiredMsg : String := "This field is required"

def invalidEmailMsg : String := "Please enter a valid email address"

/-- The literal array `['name', 'email', 'subject', 'message']` iterated by
`validateForm`. -/
def requiredFields : List FormField :=
  [FormField.name, FormField.email, FormField.subject, FormField.message]

/-- Result of `FormManager.validateForm`: the returned `isValid` flag, the
inline errors displayed afterwards, and (instrumentation) the chronological
log of `showFieldError` calls made during this validation. -/
structure VState where
  ok : Bool
  errors : Errors
  shown : List (FormField × String)
deriving DecidableEq

/-- One iteration of the `requiredFields.forEach` loop in `validateForm`. -/
def checkRequired (data : ContactData) (v : VState) (f : FormField) : VState :=
  if isBlankField (getField data f) then
    { ok := false
      errors := showFieldError v.errors f requiredMsg
      shown := v.shown ++ [(f, requiredMsg)] }
  else v

/-- Source `FormManager.validateForm`: required-field checks over the four fields
in order, then the email shape check (`data.email && !isValidEmail`),
starting from the errors already displayed. -/
def validateForm (data : ContactData) (errs : Errors) : VState :=
  let v1 := requiredFields.foldl (checkRequired data) ⟨true, errs, []⟩
  if getField data FormField.email ≠ "" && !(isValidEmail (getField data FormField.email)) then
    { ok := false
      errors := showFieldError v1.errors FormField.email invalidEmailMsg
      shown := v1.shown ++ [(FormField.email, invalidEmailMsg)] }
  else v1

/-- Source `FormManager.validateField` (the blur handler): trim the value, clear
the previous error, then run the required check and, for the email field,
the shape check. -/
def validateField (fieldName : FormField) (rawValue : String) (required : Bool)
    (errs : Errors) : Bool × Errors :=
  let value := jsTrim rawValue
  let errs1 := clearFieldError errs fieldName
  if required && value == "" then
    (false, showFieldError errs1 fieldName requiredMsg)
  else if fieldName == FormField.email && value ≠ "" && !(isValidEmail value) then
    (false, showFieldError errs1 fieldName invalidEmailMsg)
  else
    (true, errs1)

/-! Part: The submit flow of `handleContactForm` -/

/-- The state touched by `handleContactForm`: the field values, the inline
errors, the submit button (disabled flag and innerHTML), and whether the
success banner is currently inserted before the form. -/
structure FormState where
  data : ContactData
  errors : Errors
  btnDisabled : Bool
  btnLabel : String
  banner : Bool
deriving DecidableEq

/-- The busy innerHTML written while the simulated submission is pending. -/
def sendingLabel : String := "<i class=\"fas fa-spinner fa-spin\"></i> Sending..."

/-- The two `setTimeout` callbacks of the submit flow: completion of the
simulated submission (capturing the original button label), and removal of
the success banner. -/
inductive TimerAction
  | completeSubmit (originalLabel : String)
  | removeBanner
deriving DecidableEq

/-- Source `FormManager.handleContactForm`: validate; on failure return with the
(updated) inline errors and nothing else changed, scheduling nothing; on
success show the busy state and schedule the 2000 ms completion timer. -/
def handleContactForm (st : FormState) : FormState × List (Nat × TimerAction) :=
  let v := validateForm st.data st.errors
  if !v.ok then
    ({ st with errors := v.errors }, [])
  else
    ({ st with errors := v.errors
               btnLabel := sendingLabel
               btnDisabled := true },
     [(2000, TimerAction.completeSubmit st.btnLabel)])

/-- The reset form: `DOM.contactForm.reset()` clears the four fields. -/
def emptyData : ContactData := ⟨"", "", "", ""⟩

/-- Firing one pending timer of the submit flow.  The completion callback
runs `showFormSuccess` (insert the banner, schedule its removal after
5000 ms), resets the form, and restores the button; the removal callback
removes the banner. -/
def fireTimer (st : FormState) : Nat × TimerAction → FormState × List (Nat × TimerAction)
  | (_, TimerAction.completeSubmit originalLabel) =>
      ({ st with banner := true
                 data := emptyData
                 btnLabel := originalLabel
                 btnDisabled := false },
       [(5000, TimerAction.removeBanner)])
  | (_, TimerAction.removeBanner) =>
      ({ st with banner := false }, [])

/-! Part: ScrollManager: back-to-top visibility -/

/-- DOM `Element.classList.toggle(name, force)`: with `force = true` ensure the
class is present (class lists never duplicate entries), with `force = false`
remove it. -/
def classToggle (classes : List String) (c : String) (force : Bool) : List String :=
  if force then
    if classes.contains c then classes else classes ++ [c]
  else
    classes.filter (fun x => x ≠ c)

/-- Source `ScrollManager.updateBackToTop`: toggle the `visible` class on the
back-to-top button according to `window.pageYOffset > 500`. -/
def updateBackToTop (classes : List String) (pageYOffset : Nat) : List String :=
  classToggle classes "visible" (decide (pageYOffset > 500))

/-! Part: ThemeManager -/

/-- The state owned by `ThemeManager`: `this.currentTheme`, the document's
`data-theme` attribute, and the `theme` key of local storage. -/
structure ThemeState where
  currentTheme : String
  dataTheme : String
  storage : Option String
deriving DecidableEq

/-- The ThemeManager constructor plus `applyTheme`:
`localStorage.getItem('theme') || 'light'` (an absent key or an empty
string is falsy) becomes `currentTheme` and is written to `data-theme`. -/
def themeInit (storage0 : Option String) : ThemeState :=
  let t := match storage0 with
    | some s => if s = "" then "light" else s
    | none => "light"
  { currentTheme := t, dataTheme := t, storage := storage0 }

/-- Source `ThemeManager.toggleTheme`: flip between `'light'` and `'dark'`, apply
the theme, and persist it. -/
def themeToggle (st : ThemeState) : ThemeState :=
  let t := if st.currentTheme = "light" then "dark" else "light"
  { currentTheme := t, dataTheme := t, storage := some t }

/-- A sequence of `n` toggle-button clicks. -/
def themeToggleN : Nat → ThemeState → ThemeState
  | 0, st => st
  | n + 1, st => themeToggleN n (themeToggle st)

/-! Part: Navigation: active section and nav links -/

/-- A bounding client rect reduced to the vertical coordinates the script
reads; layout coordinates are rationals. -/
structure Rect where
  top : ℚ
  bottom : ℚ
deriving DecidableEq

/-- A section element carrying an id: its anchor id and its current bounding rect. -/
structure PageSection where
  id : String
  rect : Rect
deriving DecidableEq

/-- Source `isElementInViewport` (the element exists whenever the script calls it
on a page section): visible fraction of the element's height is at least
the threshold. -/
def isElementInViewport (innerHeight : ℚ) (s : PageSection) (threshold : ℚ) : Bool :=
  let rect := s.rect
  let elementHeight := rect.bottom - rect.top
  let visibleHeight := min rect.bottom innerHeight - max rect.top 0
  decide (visibleHeight / elementHeight ≥ threshold)

/-- Source loop of `Navigation.updateActiveSection`: start from `''` and overwrite
`current` with the id of every section that is ≥ 30 % visible, so the last
qualifying section in document order wins. -/
def updateActiveSection (innerHeight : ℚ) (sections : List PageSection) : String :=
  sections.foldl
    (fun current s =>
      if isElementInViewport innerHeight s (3 / 10) then s.id else current)
    ""

/-- A nav-link element: its `href` attribute and whether it currently
carries the `active` class. -/
structure NavLink where
  href : String
  active : Bool
deriving DecidableEq

/-- Source `Navigation.updateActiveNavLink`: every link first drops `active`, then
gains it exactly when its href is `'#' + sectionId`. -/
def updateActiveNavLink (links : List NavLink) (sectionId : String) : List NavLink :=
  links.map fun l => { l with active := l.href == "#" ++ sectionId }

/-! Part: ProjectGallery: category filtering -/

/-- A project card: its `data-category` and the inline style properties
the filter handler writes. -/
structure Card where
  category : String
  display : String
  opacity : String
  transform : String
deriving DecidableEq

/-- The staged timer callbacks of the filter transition: the 50 ms fade-in
and the 300 ms hide. -/
inductive CardAction
  | fadeIn
  | hide
deriving DecidableEq

/-- The synchronous part of the filter click handler for one card: matching
cards (`filter === 'all'` or equal category) are set to `display: block`
with a fade-in scheduled; others are faded out with the hide scheduled. -/
def applyFilter (filter : String) (c : Card) : Card × Nat × CardAction :=
  if filter == "all" || c.category == filter then
    ({ c with display := "block" }, 50, CardAction.fadeIn)
  else
    ({ c with opacity := "0", transform := "scale(0.8)" }, 300, CardAction.hide)

/-- Firing one staged filter-transition timer on a card. -/
def fireCardAction (c : Card) : CardAction → Card
  | CardAction.fadeIn => { c with opacity := "1", transform := "scale(1)" }
  | CardAction.hide => { c with display := "none" }

/-- A card's state after the click handler ran and its staged timer fired. -/
def settleCard (filter : String) (c : Card) : Card :=
  let r := applyFilter filter c
  fireCardAction r.1 r.2.2

/-! Part: AnimationManager: one-shot reveal -/

/-- One observed reveal element: its inline opacity/transform and whether
the intersection observer still observes it. -/
structure RevealElement where
  opacity : String
  transform : String
  observed : Bool
deriving DecidableEq

/-- Source `AnimationManager.observeElements` puts each element into the hidden,
offset state and observes it. -/
def initReveal : RevealElement :=
  { opacity := "0", transform := "translateY(30px)", observed := true }

/-- Source `AnimationManager.animateElement`: reveal the element and unobserve it. -/
def animateElement (e : RevealElement) : RevealElement :=
  { e with opacity := "1", transform := "translateY(0)", observed := false }

/-- One observer callback delivery for the element: the observer only
reports elements it still observes, and `animateElement` runs when the
entry is intersecting (per the 10 % threshold / -50px bottom margin options,
which decide the boolean the browser hands us). -/
def observerStep (e : RevealElement) (isIntersecting : Bool) : RevealElement :=
  if e.observed && isIntersecting then animateElement e else e

/-- The terminal revealed state. -/
def revealedElement : RevealElement :=
  { opacity := "1", transform := "translateY(0)", observed := false }

/-! Part: Helper lemmas about the validation fold -/

theorem showFieldError_mem_self (errs : Errors) (f : FormField) (m : String) :
    (f, m) ∈ showFieldError errs f m := by
  simp [showFieldError]

theorem showFieldError_hasErr (errs : Errors) (f g : FormField) (m : String)
    (h : ∃ m2, (g, m2) ∈ errs) : ∃ m2, (g, m2) ∈ showFieldError errs f m := by
  rcases h with ⟨m2, hm⟩
  by_cases hgf : g = f
  · subst hgf
    exact ⟨m, showFieldError_mem_self errs g m⟩
  · refine ⟨m2, ?_⟩
    simp only [showFieldError, List.mem_append]
    exact Or.inl (List.mem_filter.mpr ⟨hm, by simpa using hgf⟩)

theorem checkRequired_ok_false (data : ContactData) (v : VState) (f : FormField)
    (h : v.ok = false) : (checkRequired data v f).ok = false := by
  unfold checkRequired
  split
  · rfl
  · exact h

theorem foldl_checkRequired_ok_false (data : ContactData) (l : List FormField)
    (v : VState) (h : v.ok = false) :
    (l.foldl (checkRequired data) v).ok = false := by
  induction l generalizing v with
  | nil => exact h
  | cons a t ih => exact ih _ (checkRequired_ok_false data v a h)

theorem foldl_checkRequired_blank_not_ok (data : ContactData) (l : List FormField)
    (v : VState) (f : FormField) (hf : f ∈ l)
    (hb : isBlankField (getField data f) = true) :
    (l.foldl (checkRequired data) v).ok = false := by
  induction l generalizing v with
  | nil => cases hf
  | cons a t ih =>
    rcases List.mem_cons.mp hf with rfl | hmem
    · refine foldl_checkRequired_ok_false data t _ ?_
      simp [checkRequired, hb]
    · exact ih _ hmem

theorem checkRequired_hasErr_mono (data : ContactData) (v : VState) (f g : FormField)
    (h : ∃ m, (g, m) ∈ v.errors) : ∃ m, (g, m) ∈ (checkRequired data v f).errors := by
  unfold checkRequired
  split
  · exact showFieldError_hasErr v.errors f g requiredMsg h
  · exact h

theorem foldl_checkRequired_hasErr_mono (data : ContactData) (l : List FormField)
    (v : VState) (g : FormField) (h : ∃ m, (g, m) ∈ v.errors) :
    ∃ m, (g, m) ∈ (l.foldl (checkRequired data) v).errors := by
  induction l generalizing v with
  | nil => exact h
  | cons a t ih => exact ih _ (checkRequired_hasErr_mono data v a g h)

theorem foldl_checkRequired_hasErr (data : ContactData) (l : List FormField)
    (v : VState) (g : FormField) (hg : g ∈ l)
    (hb : isBlankField (getField data g) = true) :
    ∃ m, (g, m) ∈ (l.foldl (checkRequired data) v).errors := by
  induction l generalizing v with
  | nil => cases hg
  | cons a t ih =>
    rcases List.mem_cons.mp hg with rfl | hmem
    · refine foldl_checkRequired_hasErr_mono data t _ g ?_
      refine ⟨requiredMsg, ?_⟩
      simp only [checkRequired, hb, if_pos]
      exact showFieldError_mem_self v.errors g requiredMsg
    · exact ih _ hmem

theorem checkRequired_shown_mono (data : ContactData) (v : VState) (f : FormField)
    (p : FormField × String) (h : p ∈ v.shown) : p ∈ (checkRequired data v f).shown := by
  unfold checkRequired
  split
  · simp [h]
  · exact h

theorem foldl_checkRequired_shown_mono (data : ContactData) (l : List FormField)
    (v : VState) (p : FormField × String) (h : p ∈ v.shown) :
    p ∈ (l.foldl (checkRequired data) v).shown := by
  induction l generalizing v with
  | nil => exact h
  | cons a t ih => exact ih _ (checkRequired_shown_mono data v a p h)

theorem foldl_checkRequired_shown (data : ContactData) (l : List FormField)
    (v : VState) (g : FormField) (hg : g ∈ l)
    (hb : isBlankField (getField data g) = true) :
    (g, requiredMsg) ∈ (l.foldl (checkRequired data) v).shown := by
  induction l generalizing v with
  | nil => cases hg
  | cons a t ih =>
    rcases List.mem_cons.mp hg with rfl | hmem
    · refine foldl_checkRequired_shown_mono data t _ _ ?_
      simp [checkRequired, hb]
    · exact ih _ hmem

theorem validateForm_not_ok_of_blank (data : ContactData) (errs : Errors)
    (f : FormField) (hf : f ∈ requiredFields)
    (hb : isBlankField (getField data f) = true) :
    (validateForm data errs).ok = false := by
  unfold validateForm
  split
  · rfl
  · exact foldl_checkRequired_blank_not_ok data requiredFields _ f hf hb

theorem validateForm_hasErr_of_blank (data : ContactData) (errs : Errors)
    (g : FormField) (hg : g ∈ requiredFields)
    (hb : isBlankField (getField data g) = true) :
    ∃ m, (g, m) ∈ (validateForm data errs).errors := by
  unfold validateForm
  split
  · exact showFieldError_hasErr _ FormField.email g invalidEmailMsg
      (foldl_checkRequired_hasErr data requiredFields _ g hg hb)
  · exact foldl_checkRequired_hasErr data requiredFields _ g hg hb

theorem validateForm_shown_of_blank (data : ContactData) (errs : Errors)
    (g : FormField) (hg : g ∈ requiredFields)
    (hb : isBlankField (getField data g) = true) :
    (g, requiredMsg) ∈ (validateForm data errs).shown := by
  unfold validateForm
  split
  · simp only [List.mem_append]
    exact Or.inl (foldl_checkRequired_shown data requiredFields _ g hg hb)
  · exact foldl_checkRequired_shown data requiredFields _ g hg hb

theorem validateForm_hasErr_email_invalid (data : ContactData) (errs : Errors)
    (hne : getField data FormField.email ≠ "")
    (hi : isValidEmail (getField data FormField.email) = false) :
    ∃ m, (FormField.email, m) ∈ (validateForm data errs).errors := by
  unfold validateForm
  rw [if_pos (by simp [hne, hi])]
  exact ⟨invalidEmailMsg, showFieldError_mem_self _ FormField.email invalidEmailMsg⟩

/-- C1: submitting the contact form with some required field empty aborts
the submission before any busy state or timer is started: no timer is
scheduled, the field values, the submit button (disabled flag and label)
and the banner are unchanged, an inline error is displayed next to every
required field that fails the blank check, and next to the email field when
its nonempty value fails the shape check. -/
theorem submit_empty_required_field_aborts (st : FormState) (f : FormField)
    (hf : f ∈ requiredFields) (he : getField st.data f = "") :
    (handleContactForm st).2 = [] ∧
    (handleContactForm st).1.data = st.data ∧
    (handleContactForm st).1.btnDisabled = st.btnDisabled ∧
    (handleContactForm st).1.btnLabel = st.btnLabel ∧
    (handleContactForm st).1.banner = st.banner ∧
    (∀ g ∈ requiredFields, isBlankField (getField st.data g) = true →
      ∃ m, (g, m) ∈ (handleContactForm st).1.errors) ∧
    (getField st.data FormField.email ≠ "" →
      isValidEmail (getField st.data FormField.email) = false →
      ∃ m, (FormField.email, m) ∈ (handleContactForm st).1.errors) := by
  have hb : isBlankField (getField st.data f) = true := by
    simp [isBlankField, he]
  have hok : (validateForm st.data st.errors).ok = false :=
    validateForm_not_ok_of_blank st.data st.errors f hf hb
  have hcf : handleContactForm st =
      ({ st with errors := (validateForm st.data st.errors).errors }, []) := by
    unfold handleContactForm
    rw [if_pos (by simp [hok])]
  rw [hcf]
  refine ⟨rfl, rfl, rfl, rfl, rfl, ?_, ?_⟩
  · intro g hg hgb
    exact validateForm_hasErr_of_blank st.data st.errors g hg hgb
  · intro hne hi
    exact validateForm_hasErr_email_invalid st.data st.errors hne hi

/-- C1 witness: a concrete submit with the name field empty. -/
theorem submit_empty_required_field_aborts_witness :
    FormField.name ∈ requiredFields ∧
    getField (ContactData.mk "" "a@b.c" "s" "m") FormField.name = "" ∧
    (handleContactForm
      (FormState.mk (ContactData.mk "" "a@b.c" "s" "m") [] false "Send" false)).2 = [] :=
  ⟨by decide, by decide,
    (submit_empty_required_field_aborts
      (FormState.mk (ContactData.mk "" "a@b.c" "s" "m") [] false "Send" false)
      FormField.name (by decide) (by decide)).1⟩

/-- C2 counterexample: with a whitespace-only (hence non-empty) name, a
non-matching email, and non-empty subject and message, the submit-time
validation also displays an error on the name field, not on the email
field only. -/
theorem email_error_on_email_only_counterexample :
    (" " : String) ≠ "" ∧ ("s" : String) ≠ "" ∧ ("m" : String) ≠ "" ∧
    isValidEmail "bad" = false ∧
    (FormField.name, requiredMsg) ∈
      (validateForm (ContactData.mk " " "bad" "s" "m") []).errors ∧
    FormField.name ≠ FormField.email := by
  decide

/-- C2 (amended): when name, subject and message pass the required check
(non-empty after trimming) and the email value fails the shape regex, the
submission is blocked and the inline errors produced by the validation sit
on the email field only. -/
theorem email_invalid_error_on_email_only (d : ContactData)
    (hn : isBlankField d.name = false)
    (hs : isBlankField d.subject = false)
    (hm : isBlankField d.message = false)
    (he : isValidEmail d.email = false) :
    (validateForm d []).ok = false ∧
    (∃ m, (FormField.email, m) ∈ (validateForm d []).errors) ∧
    ∀ p ∈ (validateForm d []).errors, p.1 = FormField.email := by
  unfold validateForm requiredFields
  simp only [List.foldl_cons, List.foldl_nil]
  by_cases hee : d.email = ""
  · have hb0 : isBlankField "" = true := by decide
    simp [checkRequired, getField, hn, hs, hm, hee, hb0, showFieldError]
  · by_cases hbe : isBlankField d.email = true
    · simp [checkRequired, getField, hn, hs, hm, hbe, hee, he, showFieldError]
    · simp [checkRequired, getField, hn, hs, hm, hbe, hee, he, showFieldError]

/-- C2 witness: a concrete non-blank form whose email fails the regex. -/
theorem email_invalid_error_on_email_only_witness :
    isBlankField "a" = false ∧ isBlankField "s" = false ∧
    isBlankField "m" = false ∧ isValidEmail "bad" = false ∧
    (validateForm (ContactData.mk "a" "bad" "s" "m") []).ok = false :=
  ⟨by decide, by decide, by decide, by decide,
    (email_invalid_error_on_email_only (ContactData.mk "a" "bad" "s" "m")
      (by decide) (by decide) (by decide) (by decide)).1⟩

/-- C3: submitting a fully valid contact form immediately disables the
submit control and shows the busy label, scheduling the 2000 ms completion
timer; firing that timer inserts the success banner, resets the form,
re-enables the submit control with its original label, and schedules the
5000 ms banner-removal timer; firing that second timer removes the banner. -/
theorem submit_valid_success_flow (st : FormState)
    (h : (validateForm st.data st.errors).ok = true) :
    (handleContactForm st).1.btnDisabled = true ∧
    (handleContactForm st).1.btnLabel = sendingLabel ∧
    (handleContactForm st).1.data = st.data ∧
    (handleContactForm st).1.banner = st.banner ∧
    (handleContactForm st).2 = [(2000, TimerAction.completeSubmit st.btnLabel)] ∧
    (fireTimer (handleContactForm st).1
      (2000, TimerAction.completeSubmit st.btnLabel)).1.banner = true ∧
    (fireTimer (handleContactForm st).1
      (2000, TimerAction.completeSubmit st.btnLabel)).1.data = emptyData ∧
    (fireTimer (handleContactForm st).1
      (2000, TimerAction.completeSubmit st.btnLabel)).1.btnDisabled = false ∧
    (fireTimer (handleContactForm st).1
      (2000, TimerAction.completeSubmit st.btnLabel)).1.btnLabel = st.btnLabel ∧
    (fireTimer (handleContactForm st).1
      (2000, TimerAction.completeSubmit st.btnLabel)).2 =
        [(5000, TimerAction.removeBanner)] ∧
    (fireTimer (fireTimer (handleContactForm st).1
      (2000, TimerAction.completeSubmit st.btnLabel)).1
      (5000, TimerAction.removeBanner)).1.banner = false := by
  have hcf : handleContactForm st =
      ({ st with errors := (validateForm st.data st.errors).errors
                 btnLabel := sendingLabel
                 btnDisabled := true },
       [(2000, TimerAction.completeSubmit st.btnLabel)]) := by
    unfold handleContactForm
    rw [if_neg (by simp [h])]
  rw [hcf]
  simp [fireTimer]

/-- C3 witness: a concrete valid submit. -/
theorem submit_valid_success_flow_witness :
    (validateForm (ContactData.mk "a" "a@b.c" "s" "m") []).ok = true ∧
    (handleContactForm
      (FormState.mk (ContactData.mk "a" "a@b.c" "s" "m") [] false "Send" false)).1.btnDisabled
      = true :=
  ⟨by decide,
    (submit_valid_success_flow
      (FormState.mk (ContactData.mk "a" "a@b.c" "s" "m") [] false "Send" false)
      (by decide)).1⟩

/-- C10: a whitespace-only value of a required field is treated as empty by
both validation paths, because the value is trimmed before the required
check: on blur, `validateField` fails and displays the required-field
error; on submit, `validateForm` logs the required-field error for that
field and returns invalid, blocking submission. -/
theorem whitespace_only_treated_as_empty (v : String) (_hne : v ≠ "")
    (hws : jsTrim v = "") (f : FormField) (errs : Errors)
    (d : ContactData) (g : FormField) (hg : g ∈ requiredFields)
    (hgv : getField d g = v) :
    isBlankField v = true ∧
    (validateField f v true errs).1 = false ∧
    (f, requiredMsg) ∈ (validateField f v true errs).2 ∧
    (validateForm d errs).ok = false ∧
    (g, requiredMsg) ∈ (validateForm d errs).shown := by
  have hb : isBlankField v = true := by simp [isBlankField, hws]
  have hbg : isBlankField (getField d g) = true := by rw [hgv]; exact hb
  refine ⟨hb, ?_, ?_, ?_, ?_⟩
  · simp [validateField, hws]
  · have hvf : validateField f v true errs =
        (false, showFieldError (clearFieldError errs f) f requiredMsg) := by
      simp [validateField, hws]
    rw [hvf]
    exact showFieldError_mem_self _ f requiredMsg
  · exact validateForm_not_ok_of_blank d errs g hg hbg
  · exact validateForm_shown_of_blank d errs g hg hbg

/-- C10 witness: the single-space value in the name field. -/
theorem whitespace_only_treated_as_empty_witness :
    (" " : String) ≠ "" ∧ jsTrim " " = "" ∧
    FormField.name ∈ requiredFields ∧
    getField (ContactData.mk " " "a@b.c" "s" "m") FormField.name = " " ∧
    isBlankField " " = true :=
  ⟨by decide, by decide, by decide, by decide,
    (whitespace_only_treated_as_empty " " (by decide) (by decide)
      FormField.name [] (ContactData.mk " " "a@b.c" "s" "m") FormField.name
      (by decide) (by decide)).1⟩

/-! Part: Back-to-top, theme, navigation, gallery and reveal theorems -/

theorem mem_classToggle (classes : List String) (c : String) (force : Bool) :
    c ∈ classToggle classes c force ↔ force = true := by
  unfold classToggle
  cases force with
  | false => simp [List.mem_filter]
  | true =>
    constructor
    · intro _
      rfl
    · intro _
      by_cases hcon : classes.contains c = true
      · rw [if_pos hcon]
        exact List.mem_of_elem_eq_true hcon
      · rw [if_neg hcon]
        exact List.mem_append_right _ (List.mem_singleton_self c)

/-- C4: after `updateBackToTop` runs, the back-to-top control carries the
`visible` class iff the vertical scroll position strictly exceeds 500
pixels; in particular it is not visible at exactly 500 and visible at 501,
whatever classes the control carried before. -/
theorem backToTop_visible_iff_scrolled (classes : List String) (y : Nat) :
    ("visible" ∈ updateBackToTop classes y ↔ 500 < y) ∧
    "visible" ∉ updateBackToTop classes 500 ∧
    "visible" ∈ updateBackToTop classes 501 := by
  refine ⟨?_, ?_, ?_⟩
  · rw [updateBackToTop, mem_classToggle]
    simp
  · rw [updateBackToTop, mem_classToggle]
    simp
  · rw [updateBackToTop, mem_classToggle]
    decide

/-- C4 witness: the boundary values on a bare class list. -/
theorem backToTop_visible_iff_scrolled_witness :
    "visible" ∉ updateBackToTop [] 500 ∧ "visible" ∈ updateBackToTop [] 501 :=
  ⟨(backToTop_visible_iff_scrolled [] 500).2.1,
   (backToTop_visible_iff_scrolled [] 501).2.2⟩

theorem themeToggle_light_or_dark (st : ThemeState) :
    ((themeToggle st).currentTheme = "light" ∨
      (themeToggle st).currentTheme = "dark") ∧
    (themeToggle st).dataTheme = (themeToggle st).currentTheme := by
  unfold themeToggle
  by_cases h : st.currentTheme = "light" <;> simp [h]

theorem themeToggleN_light_or_dark (n : Nat) (st : ThemeState)
    (h : (st.currentTheme = "light" ∨ st.currentTheme = "dark") ∧
      st.dataTheme = st.currentTheme) :
    ((themeToggleN n st).currentTheme = "light" ∨
      (themeToggleN n st).currentTheme = "dark") ∧
    (themeToggleN n st).dataTheme = (themeToggleN n st).currentTheme := by
  induction n generalizing st with
  | zero => exact h
  | succ n ih => exact ih _ (themeToggle_light_or_dark st)

/-- C5: starting from a storage state the application can produce (absent
key, `"light"`, or `"dark"`), after load and any number of toggle clicks
the theme is one of the two values and is the value written to the
document's `data-theme` attribute; an absent key defaults to light, and a
toggle maps light to dark and dark to light. -/
theorem theme_always_light_or_dark (s0 : Option String)
    (h : s0 = none ∨ s0 = some "light" ∨ s0 = some "dark") (n : Nat) :
    ((themeToggleN n (themeInit s0)).currentTheme = "light" ∨
      (themeToggleN n (themeInit s0)).currentTheme = "dark") ∧
    (themeToggleN n (themeInit s0)).dataTheme =
      (themeToggleN n (themeInit s0)).currentTheme ∧
    (themeInit none).currentTheme = "light" ∧
    (∀ st : ThemeState, st.currentTheme = "light" →
      (themeToggle st).currentTheme = "dark") ∧
    (∀ st : ThemeState, st.currentTheme = "dark" →
      (themeToggle st).currentTheme = "light") := by
  have hinit : ((themeInit s0).currentTheme = "light" ∨
      (themeInit s0).currentTheme = "dark") ∧
      (themeInit s0).dataTheme = (themeInit s0).currentTheme := by
    rcases h with rfl | rfl | rfl <;> simp [themeInit]
  have hmain := themeToggleN_light_or_dark n (themeInit s0) hinit
  refine ⟨hmain.1, hmain.2, by simp [themeInit], ?_, ?_⟩
  · intro st hl
    simp [themeToggle, hl]
  · intro st hd
    simp [themeToggle, hd]

/-- C5 witness: absent storage, three toggles. -/
theorem theme_always_light_or_dark_witness :
    ((none : Option String) = none ∨ (none : Option String) = some "light" ∨
      (none : Option String) = some "dark") ∧
    ((themeToggleN 3 (themeInit none)).currentTheme = "light" ∨
      (themeToggleN 3 (themeInit none)).currentTheme = "dark") :=
  ⟨Or.inl rfl, (theme_always_light_or_dark none (Or.inl rfl) 3).1⟩

theorem updateActiveNavLink_no_match_filter_nil (t : List NavLink) (sectionId : String)
    (h : ∀ x ∈ t, ¬x.href = "#" ++ sectionId) :
    (updateActiveNavLink t sectionId).filter (fun l => l.active) = [] := by
  induction t with
  | nil => rfl
  | cons a t ih =>
    have ha : (a.href == "#" ++ sectionId) = false := by
      simpa using h a (List.mem_cons_self a t)
    have ht := ih fun x hx => h x (List.mem_cons_of_mem a hx)
    simp only [updateActiveNavLink, List.map_cons, List.filter_cons] at ht ⊢
    simp [ha, ht]

/-- C6: after `updateActiveNavLink` runs (as it does on load and whenever a
scroll recomputation changes the active section), at most one navigation
link carries the `active` class, provided the nav links target pairwise
distinct anchors as the markup contract requires. -/
theorem at_most_one_nav_link_active (links : List NavLink) (sectionId : String)
    (h : (links.map NavLink.href).Nodup) :
    ((updateActiveNavLink links sectionId).filter (fun l => l.active)).length ≤ 1 := by
  induction links with
  | nil => simp [updateActiveNavLink]
  | cons a t ih =>
    rw [List.map_cons, List.nodup_cons] at h
    by_cases ha : a.href = "#" ++ sectionId
    · have ht : ∀ x ∈ t, ¬x.href = "#" ++ sectionId := by
        intro x hx hcontra
        exact h.1 (by rw [ha, ← hcontra]; exact List.mem_map_of_mem NavLink.href hx)
      have hnil := updateActiveNavLink_no_match_filter_nil t sectionId ht
      simp only [updateActiveNavLink, List.map_cons, List.filter_cons] at hnil ⊢
      simp [ha, hnil]
    · have ha2 : (a.href == "#" ++ sectionId) = false := by simpa using ha
      have ht := ih h.2
      simp only [updateActiveNavLink, List.map_cons, List.filter_cons] at ht ⊢
      simpa [ha2] using ht

/-- C6 witness: two nav links with distinct anchors. -/
theorem at_most_one_nav_link_active_witness :
    (([NavLink.mk "#home" false, NavLink.mk "#about" true].map NavLink.href).Nodup) ∧
    ((updateActiveNavLink [NavLink.mk "#home" false, NavLink.mk "#about" true]
      "about").filter (fun l => l.active)).length ≤ 1 :=
  ⟨by decide,
    at_most_one_nav_link_active [NavLink.mk "#home" false, NavLink.mk "#about" true]
      "about" (by decide)⟩

theorem foldl_section_no_qualify (innerHeight : ℚ) (post : List PageSection)
    (acc : String)
    (h : ∀ t2 ∈ post, isElementInViewport innerHeight t2 (3 / 10) = false) :
    post.foldl
      (fun current s =>
        if isElementInViewport innerHeight s (3 / 10) then s.id else current)
      acc = acc := by
  induction post generalizing acc with
  | nil => rfl
  | cons a t ih =>
    have ha := h a (List.mem_cons_self a t)
    rw [List.foldl_cons, if_neg (by simp [ha])]
    exact ih acc fun x hx => h x (List.mem_cons_of_mem a hx)

/-- C7: when the section `s` qualifies (≥ 30 % visible) and no section
after it in document order qualifies, the scroll recomputation selects `s`
as the active section — the last qualifying section in document order wins,
whatever qualifies among the earlier sections — and the nav link whose href
targets `s` is then marked active. -/
theorem last_qualifying_section_wins (innerHeight : ℚ) (pre post : List PageSection)
    (s : PageSection) (links : List NavLink)
    (hs : isElementInViewport innerHeight s (3 / 10) = true)
    (hpost : ∀ t2 ∈ post, isElementInViewport innerHeight t2 (3 / 10) = false) :
    updateActiveSection innerHeight (pre ++ s :: post) = s.id ∧
    ∀ l ∈ updateActiveNavLink links
        (updateActiveSection innerHeight (pre ++ s :: post)),
      l.href = "#" ++ s.id → l.active = true := by
  have h1 : updateActiveSection innerHeight (pre ++ s :: post) = s.id := by
    unfold updateActiveSection
    rw [List.foldl_append, List.foldl_cons, if_pos hs]
    exact foldl_section_no_qualify innerHeight post s.id hpost
  refine ⟨h1, ?_⟩
  rw [h1]
  intro l hl hhref
  simp only [updateActiveNavLink, List.mem_map] at hl
  rcases hl with ⟨x, hx, rfl⟩
  simp only at hhref
  simp [hhref]

/-- C7 witness: two fully visible stacked sections in an 800px viewport;
the later one is selected. -/
theorem last_qualifying_section_wins_witness :
    isElementInViewport 800 (PageSection.mk "s2" (Rect.mk 400 800)) (3 / 10) = true ∧
    (∀ t2 ∈ ([] : List PageSection),
      isElementInViewport 800 t2 (3 / 10) = false) ∧
    updateActiveSection 800
      [PageSection.mk "s1" (Rect.mk 0 400), PageSection.mk "s2" (Rect.mk 400 800)]
      = "s2" :=
  ⟨by norm_num [isElementInViewport], by simp,
    (last_qualifying_section_wins 800 [PageSection.mk "s1" (Rect.mk 0 400)] []
      (PageSection.mk "s2" (Rect.mk 400 800)) []
      (by norm_num [isElementInViewport]) (by simp)).1⟩

/-- C8: a filter click with value `all` sets every card to `display:
block` regardless of its category; a click with any other filter value
leaves, once the staged timers have fired, exactly the matching cards
visible (`display: block`, opacity 1) and every non-matching card hidden
(`display: none`). -/
theorem filter_all_wildcard_specific_exact (cards : List Card) (flt : String) :
    (∀ c ∈ cards, ((applyFilter "all" c).1).display = "block") ∧
    (flt ≠ "all" → ∀ c ∈ cards,
      (c.category = flt →
        (settleCard flt c).display = "block" ∧ (settleCard flt c).opacity = "1") ∧
      (c.category ≠ flt → (settleCard flt c).display = "none")) := by
  constructor
  · intro c _
    simp [applyFilter]
  · intro hne c _
    have hfa : (flt == "all") = false := by simpa using hne
    constructor
    · intro hcat
      have hc : (flt == "all" || (c.category == flt)) = true := by simp [hcat]
      simp [settleCard, applyFilter, hc, fireCardAction]
    · intro hcat
      have hc : (flt == "all" || (c.category == flt)) = false := by
        simp [hfa, hcat]
      simp [settleCard, applyFilter, hc, fireCardAction]

/-- C8 witness: a non-matching card under a specific filter ends hidden. -/
theorem filter_all_wildcard_specific_exact_witness :
    ("web" : String) ≠ "all" ∧
    (Card.mk "app" "block" "1" "scale(1)").category ≠ "web" ∧
    (settleCard "web" (Card.mk "app" "block" "1" "scale(1)")).display = "none" :=
  ⟨by decide, by decide,
    ((filter_all_wildcard_specific_exact [Card.mk "app" "block" "1" "scale(1)"]
        "web").2 (by decide) (Card.mk "app" "block" "1" "scale(1)")
        (List.mem_singleton_self _)).2 (by decide)⟩

theorem observerStep_unobserved_fix (e : RevealElement) (b : Bool)
    (h : e.observed = false) : observerStep e b = e := by
  simp [observerStep, h]

theorem foldl_observerStep_revealed (bs : List Bool) :
    List.foldl observerStep revealedElement bs = revealedElement := by
  induction bs with
  | nil => rfl
  | cons b t ih =>
    rw [List.foldl_cons, observerStep_unobserved_fix revealedElement b rfl]
    exact ih

theorem foldl_observerStep_mem_true (bs : List Bool) (h : true ∈ bs) :
    List.foldl observerStep initReveal bs = revealedElement := by
  induction bs with
  | nil => cases h
  | cons b t ih =>
    rw [List.foldl_cons]
    cases b with
    | true =>
      rw [show observerStep initReveal true = revealedElement from rfl]
      exact foldl_observerStep_revealed t
    | false =>
      rw [show observerStep initReveal false = initReveal from rfl]
      refine ih ?_
      rcases List.mem_cons.mp h with hh | hmem
      · cases hh
      · exact hmem

/-- C9: once an observed reveal element has intersected the viewport (per
the observer's 10 % threshold and -50px bottom margin, which decide the
boolean delivered to the callback), it is revealed and unobserved, and any
further sequence of deliveries leaves it in the revealed state: the reveal
fires at most once and revealed is terminal. -/
theorem reveal_fires_at_most_once (bs more : List Bool) (h : true ∈ bs) :
    List.foldl observerStep initReveal bs = revealedElement ∧
    List.foldl observerStep initReveal (bs ++ more) = revealedElement ∧
    revealedElement.observed = false ∧
    revealedElement.opacity = "1" ∧
    revealedElement.transform = "translateY(0)" ∧
    ∀ b, observerStep revealedElement b = revealedElement := by
  refine ⟨foldl_observerStep_mem_true bs h, ?_, rfl, rfl, rfl, ?_⟩
  · rw [List.foldl_append, foldl_observerStep_mem_true bs h]
    exact foldl_observerStep_revealed more
  · intro b
    exact observerStep_unobserved_fix revealedElement b rfl

/-- C9 witness: the element is revealed on its first intersection and stays
revealed through later deliveries. -/
theorem reveal_fires_at_most_once_witness :
    true ∈ [false, true] ∧
    List.foldl observerStep initReveal ([false, true] ++ [true, false]) =
      revealedElement :=
  ⟨by decide, (reveal_fires_at_most_once [false, true] [true, false] (by decide)).2.1⟩
